import Mathlib

/-!
Verification of the Plus Vans booking wizard (a three-step React booking
form submitting to a Google-Apps-Script backend).

Shallow embedding conventions:
* TypeScript string values are Lean `String`s; `undefined`/absent fields are
  `Option` with `none`; the JavaScript distinction between a nullish value
  and a falsy empty string is modelled explicitly where the source relies
  on it (`jsTruthy`, `jsOrStr`).
* JavaScript numbers appearing in the pricing table are natural numbers
  (all amounts in the source are non-negative integers).
* External collaborators (the address provider, the payment processor, the
  `libphonenumber` library) are oracle functions passed as parameters.
* Fallible network exchanges are `Except`/explicit result values.
-/

/-! ## Pricing table (StepThree, `SLOT_RULES` / `amountGBP`) -/

/-- A pricing rule: display label, flat surcharge, minimum charge.
Mirrors `{ display: string; surcharge: number; min: number }`. -/
structure SlotRule where
  display : String
  surcharge : Nat
  min : Nat
  deriving DecidableEq, Repr

/-- The `SLOT_RULES` table from `StepThree`, in source order. -/
def SLOT_RULES : List (String × SlotRule) :=
  [ ("ANY",       ⟨"Any time",    0,  0⟩),
    ("6_9_AM",    ⟨"06:00–09:00", 29, 0⟩),
    ("9_12_AM",   ⟨"09:00–12:00", 0,  0⟩),
    ("12_3_PM",   ⟨"12:00–15:00", 0,  0⟩),
    ("3_6_PM",    ⟨"15:00–18:00", 29, 0⟩),
    ("6_9_PM",    ⟨"18:00–21:00", 39, 0⟩),
    ("AFTER_9PM", ⟨"After 21:00", 0,  179⟩) ]

/-- The `"ANY"` entry of the table (`SLOT_RULES["ANY"]`). -/
def ANY_RULE : SlotRule := ⟨"Any time", 0, 0⟩

/-- `SLOT_RULES[slotKey] || SLOT_RULES["ANY"]`: table lookup falling back to
the any-time rule for keys not present. -/
def lookupSlotRule (slotKey : String) : SlotRule :=
  match SLOT_RULES.find? (fun e => e.1 == slotKey) with
  | some e => e.2
  | none => ANY_RULE

/-- The payable amount computed in `StepThree`: the rule's minimum charge
for `AFTER_9PM`, the flat surcharge otherwise. -/
def amountGBP (slotKey : String) : Nat :=
  let slotRule := lookupSlotRule slotKey
  if slotKey == "AFTER_9PM" then slotRule.min else slotRule.surcharge

/-- C1: the pricing lookup is total and deterministic: it returns the
table's rule for every key present, and the "any time" rule (surcharge 0,
no minimum) for every key absent; the amount due is the rule's minimum
charge for `AFTER_9PM` and the rule's flat surcharge for every other key. -/
theorem slot_pricing_total_and_amount :
    (∀ k r, (k, r) ∈ SLOT_RULES → lookupSlotRule k = r) ∧
    (∀ k, k ∉ SLOT_RULES.map Prod.fst → lookupSlotRule k = ANY_RULE) ∧
    ANY_RULE.surcharge = 0 ∧ ANY_RULE.min = 0 ∧
    amountGBP "AFTER_9PM" = (lookupSlotRule "AFTER_9PM").min ∧
    (∀ k, k ≠ "AFTER_9PM" → amountGBP k = (lookupSlotRule k).surcharge) := by
  refine ⟨?_, ?_, rfl, rfl, rfl, ?_⟩
  · intro k r h
    fin_cases h <;> rfl
  · intro k hk
    have hfind : SLOT_RULES.find? (fun e => e.1 == k) = none := by
      rw [List.find?_eq_none]
      intro e he hbeq
      have heq : e.1 = k := by simpa using hbeq
      exact hk (heq ▸ List.mem_map_of_mem Prod.fst he)
    simp [lookupSlotRule, hfind]
  · intro k hk
    simp [amountGBP, hk]

/-- Witness for C1 at concrete keys. -/
theorem slot_pricing_total_and_amount_witness :
    lookupSlotRule "6_9_PM" = ⟨"18:00–21:00", 39, 0⟩ ∧
    lookupSlotRule "NO_SUCH_KEY" = ANY_RULE ∧
    amountGBP "AFTER_9PM" = 179 ∧
    amountGBP "6_9_PM" = 39 := by
  obtain ⟨h1, h2, _, _, h5, h6⟩ := slot_pricing_total_and_amount
  refine ⟨h1 "6_9_PM" _ (by decide), h2 "NO_SUCH_KEY" (by decide), ?_, ?_⟩
  · rw [h5]; rfl
  · rw [h6 "6_9_PM" (by decide)]; rfl

/-! ## Slot label tables and the forward-step merge (BookingForm / StepTwo) -/

/-- `SLOT_LABEL_BY_KEY` from `BookingForm`, in source order. -/
def SLOT_LABEL_BY_KEY : List (String × String) :=
  [ ("ANY",       "Any time"),
    ("6_9_AM",    "6-9am + £29.00"),
    ("9_12_AM",   "9-12am"),
    ("12_3_PM",   "12-3pm"),
    ("3_6_PM",    "3-6pm + £29.00"),
    ("6_9_PM",    "6-9pm + £39.00"),
    ("AFTER_9PM", "After 9pm minimum charge £179.00") ]

/-- `TIME_SLOTS` from `StepTwo`, in source order. -/
def TIME_SLOTS : List (String × String) :=
  [ ("ANY",       "Any time"),
    ("6_9_AM",    "6-9am"),
    ("9_12_AM",   "9-12am"),
    ("12_3_PM",   "12-3pm"),
    ("3_6_PM",    "3-6pm"),
    ("6_9_PM",    "6-9pm"),
    ("AFTER_9PM", "After 9pm") ]

/-- `SLOT_LABEL_BY_KEY[key]` (`undefined` for keys not in the table). -/
def labelByKey (key : String) : Option String :=
  (SLOT_LABEL_BY_KEY.find? (fun e => e.1 == key)).map Prod.snd

/-- The reverse lookup used during the merge in `BookingForm.handleNext`:
`Object.entries(SLOT_LABEL_BY_KEY).find(([, lbl]) => lbl === label)?.[0]`. -/
def reverseKeyByLabel (label : String) : Option String :=
  (SLOT_LABEL_BY_KEY.find? (fun e => e.2 == label)).map Prod.fst

/-- The label step 2 emits for a selected slot key:
`TIME_SLOTS.find(t => t.key === values.collectionTimeSlot)?.label ?? ""`. -/
def stepTwoLabelForKey (key : String) : String :=
  ((TIME_SLOTS.find? (fun e => e.1 == key)).map Prod.snd).getD ""

/-- The slot key/label pair stored in the booking draft.  The draft is
initialised with both fields `""` (unset). -/
structure SlotPair where
  collectionTime : String
  collectionTimeSlot : String
  deriving DecidableEq, Repr

/-- The slot fields of a forward step's payload (`Partial<BookingFormData>`):
`none` models an absent (`undefined`) field. -/
structure SlotData where
  collectionTime : Option String
  collectionTimeSlot : Option String
  deriving DecidableEq, Repr

/-- JavaScript truthiness of a possibly-undefined string: defined and
non-empty. -/
def jsTruthy : Option String → Bool
  | some s => s != ""
  | none => false

/-- The slot reconciliation of `BookingForm.handleNext`:
`collectionTime: data.collectionTime ?? (data.collectionTimeSlot ?
SLOT_LABEL_BY_KEY[data.collectionTimeSlot] ?? prev.collectionTime :
prev.collectionTime)` and `collectionTimeSlot: data.collectionTimeSlot ??
(data.collectionTime && !prev.collectionTimeSlot ? reverse ??
prev.collectionTimeSlot : prev.collectionTimeSlot)`. -/
def handleNextSlots (prev : SlotPair) (data : SlotData) : SlotPair :=
  { collectionTime :=
      match data.collectionTime with
      | some t => t
      | none =>
        match data.collectionTimeSlot with
        | some k =>
          if k != "" then (labelByKey k).getD prev.collectionTime
          else prev.collectionTime
        | none => prev.collectionTime
    collectionTimeSlot :=
      match data.collectionTimeSlot with
      | some k => k
      | none =>
        if jsTruthy data.collectionTime && prev.collectionTimeSlot == "" then
          (reverseKeyByLabel (data.collectionTime.getD "")).getD
            prev.collectionTimeSlot
        else prev.collectionTimeSlot }

/-- C6 counterexample: step 2's own payload for key `6_9_AM` (it sends both
the key and the `TIME_SLOTS` label `"6-9am"`) is merged as given, leaving
the stored label different from the pricing table's label for the stored
key — the claimed invariant fails. -/
theorem merge_invariant_counterexample :
    (handleNextSlots ⟨"", ""⟩ ⟨some "6-9am", some "6_9_AM"⟩).collectionTimeSlot
      = "6_9_AM" ∧
    (handleNextSlots ⟨"", ""⟩ ⟨some "6-9am", some "6_9_AM"⟩).collectionTime
      = "6-9am" ∧
    labelByKey "6_9_AM" = some "6-9am + £29.00" ∧
    ("6_9_AM" : String) ≠ "" ∧
    labelByKey "6_9_AM" ≠
      some (handleNextSlots ⟨"", ""⟩
        ⟨some "6-9am", some "6_9_AM"⟩).collectionTime := by
  refine ⟨rfl, rfl, rfl, by decide, by decide⟩

/-- C6 amended: the one-sided derivations of the merge hold — incoming data
with only a table key stores that key with the table's label; incoming data
with only a non-empty label, while the stored key is unset, sets the key by
reverse lookup when the label occurs in the table and leaves it unset
otherwise; a merge providing neither field preserves both.  (The
unconditional consistency invariant fails when both fields arrive, see the
counterexample.) -/
theorem merge_slot_reconciliation :
    (∀ prev k l, (k, l) ∈ SLOT_LABEL_BY_KEY →
      handleNextSlots prev ⟨none, some k⟩ = ⟨l, k⟩ ∧ labelByKey k = some l) ∧
    (∀ prev t k, prev.collectionTimeSlot = "" → t ≠ "" →
      reverseKeyByLabel t = some k →
      handleNextSlots prev ⟨some t, none⟩ = ⟨t, k⟩ ∧ labelByKey k = some t) ∧
    (∀ prev t, prev.collectionTimeSlot = "" → reverseKeyByLabel t = none →
      (handleNextSlots prev ⟨some t, none⟩).collectionTimeSlot = "") ∧
    (∀ prev, handleNextSlots prev ⟨none, none⟩ = prev) := by
  refine ⟨?_, ?_, ?_, ?_⟩
  · intro prev k l h
    fin_cases h <;> exact ⟨rfl, rfl⟩
  · intro prev t k hprev ht hrev
    obtain ⟨e, hfind, hfst⟩ := Option.map_eq_some'.mp hrev
    have hmem := List.mem_of_find?_eq_some hfind
    have hpred := List.find?_some hfind
    have hsnd : e.2 = t := by simpa using hpred
    subst hfst hsnd
    constructor
    · simp only [handleNextSlots, jsTruthy, hprev]
      fin_cases hmem <;> simp_all [reverseKeyByLabel]
    · fin_cases hmem <;> rfl
  · intro prev t hprev hrev
    simp [handleNextSlots, hprev, hrev]
  · intro prev
    simp [handleNextSlots, jsTruthy]

/-- Witness for the amended C6 at concrete merges. -/
theorem merge_slot_reconciliation_witness :
    (handleNextSlots ⟨"old", "OLD"⟩ ⟨none, some "6_9_PM"⟩
      = ⟨"6-9pm + £39.00", "6_9_PM"⟩) ∧
    (handleNextSlots ⟨"", ""⟩ ⟨some "12-3pm", none⟩ = ⟨"12-3pm", "12_3_PM"⟩) ∧
    ((handleNextSlots ⟨"", ""⟩ ⟨some "no such label", none⟩).collectionTimeSlot
      = "") ∧
    (handleNextSlots ⟨"9-12am", "9_12_AM"⟩ ⟨none, none⟩
      = ⟨"9-12am", "9_12_AM"⟩) := by
  obtain ⟨ha, hb, hc, hd⟩ := merge_slot_reconciliation
  refine ⟨(ha ⟨"old", "OLD"⟩ "6_9_PM" "6-9pm + £39.00" (by decide)).1,
    (hb ⟨"", ""⟩ "12-3pm" "12_3_PM" rfl (by decide) (by decide)).1,
    hc ⟨"", ""⟩ "no such label" rfl (by decide),
    hd ⟨"9-12am", "9_12_AM"⟩⟩

/-- C7 counterexample: the label step 2 emits for key `6_9_AM` is `"6-9am"`
(from `TIME_SLOTS`), and decoding it through the merge's reverse lookup in
`SLOT_LABEL_BY_KEY` yields nothing — the round-trip does not return the
original key for this table entry. -/
theorem slot_roundtrip_counterexample :
    stepTwoLabelForKey "6_9_AM" = "6-9am" ∧
    reverseKeyByLabel (stepTwoLabelForKey "6_9_AM") = none ∧
    reverseKeyByLabel (stepTwoLabelForKey "6_9_AM") ≠ some "6_9_AM" := by
  exact ⟨rfl, rfl, by decide⟩

/-- C7 amended: encoding with the step-2 label table and decoding with the
merge's reverse lookup returns the original key exactly for the keys whose
`TIME_SLOTS` label coincides with the `SLOT_LABEL_BY_KEY` label (`ANY`,
`9_12_AM`, `12_3_PM`); within `SLOT_LABEL_BY_KEY` itself the key→label→key
round-trip holds for every entry. -/
theorem slot_roundtrip_characterisation :
    (∀ k, k ∈ TIME_SLOTS.map Prod.fst →
      (reverseKeyByLabel (stepTwoLabelForKey k) = some k ↔
        k ∈ (["ANY", "9_12_AM", "12_3_PM"] : List String))) ∧
    (∀ k l, (k, l) ∈ SLOT_LABEL_BY_KEY → reverseKeyByLabel l = some k) := by
  constructor
  · intro k hk
    fin_cases hk <;> decide
  · intro k l h
    fin_cases h <;> decide

/-- Witness for the amended C7 at concrete keys. -/
theorem slot_roundtrip_characterisation_witness :
    (reverseKeyByLabel (stepTwoLabelForKey "9_12_AM") = some "9_12_AM") ∧
    ¬(reverseKeyByLabel (stepTwoLabelForKey "3_6_PM") = some "3_6_PM") ∧
    reverseKeyByLabel "After 9pm minimum charge £179.00" = some "AFTER_9PM" := by
  obtain ⟨h1, h2⟩ := slot_roundtrip_characterisation
  refine ⟨(h1 "9_12_AM" (by decide)).mpr (by decide), ?_,
    h2 "AFTER_9PM" "After 9pm minimum charge £179.00" (by decide)⟩
  intro hcon
  exact absurd ((h1 "3_6_PM" (by decide)).mp hcon) (by decide)

/-! ## Phone validation (StepOne, `looksSequentialOrRepeated` / `ukMobile`) -/

/-- ASCII whitespace, modelling the characters the source's `\s` meets in
practice (space, tab, newline, carriage return, vertical tab, form feed). -/
def isWsChar (c : Char) : Bool :=
  c.toNat == 32 || c.toNat == 9 || c.toNat == 10 || c.toNat == 13 ||
  c.toNat == 11 || c.toNat == 12

/-- `s.replace(/\D/g, "")`: keep only the decimal digits of a string. -/
def stripNonDigits (s : String) : List Char :=
  s.data.filter Char.isDigit

/-- `needle` occurs as a contiguous run inside `haystack`
(JavaScript `String.prototype.includes`). -/
def isInfixList (needle haystack : List Char) : Bool :=
  match haystack with
  | [] => needle.isEmpty
  | _ :: t => needle.isPrefixOf haystack || isInfixList needle t

/-- The ascending probe string `"01234567890123456789"` of the source. -/
def seqDigits : List Char := "01234567890123456789".data

/-- The descending probe string `"98765432109876543210"` of the source. -/
def rseqDigits : List Char := "98765432109876543210".data

/-- `looksSequentialOrRepeated` from `StepOne`: strip non-digits, then
flag the whole digit string being a run of one repeated digit of length ≥ 6
(`/^(\\d)\\1{5,}$/`), or an infix of the ascending / descending decade probe
strings (`seq.includes(d) || rseq.includes(d)`). -/
def looksSequentialOrRepeated (digits : String) : Bool :=
  match stripNonDigits digits with
  | [] => false
  | c :: rest =>
    (c.isDigit && decide (rest.length >= 5) && rest.all (fun x => x == c))
    || isInfixList (c :: rest) seqDigits || isInfixList (c :: rest) rseqDigits

/-- `v.replace(/\\s+/g, "")`: remove all whitespace (the preceding zod
`.trim()` removes only outer whitespace and is subsumed). -/
def stripWs (s : String) : String :=
  String.mk (s.data.filter (fun c => !isWsChar c))

/-- The E.164 candidate built in `ukMobile`: keep an explicit `+`, convert a
leading national trunk `0` to `+44`, otherwise prefix `+44`. -/
def toE164 (v : String) : String :=
  match (stripWs v).data with
  | '+' :: rest => String.mk ('+' :: rest)
  | '0' :: rest => String.mk ('+' :: '4' :: '4' :: rest)
  | other => String.mk ('+' :: '4' :: '4' :: other)

/-- The shape test `/^\\+447\\d{9}$/`. -/
def matchGbMobile (s : String) : Bool :=
  match s.data with
  | '+' :: '4' :: '4' :: '7' :: rest =>
    decide (rest.length = 9) && rest.all Char.isDigit
  | _ => false

/-- `e164.replace(/^\\+44/, "0")`: the national form of the candidate. -/
def nationalForm (e164 : String) : String :=
  match e164.data with
  | '+' :: '4' :: '4' :: rest => String.mk ('0' :: rest)
  | _ => e164

/-- The `ukMobile` refinement from `StepOne`.  The external `libphonenumber`
calls are oracles: `isValid` is `isValidPhoneNumber(e164, "GB")`, `parseOk`
is whether `parsePhoneNumberFromString(e164)` returns a value, and
`getType` is `parsed.getType?.()` (`none` = `undefined`; a non-empty value
other than `"MOBILE"` rejects). -/
def ukMobile (isValid : String → Bool) (parseOk : String → Bool)
    (getType : String → Option String) (v : String) : Bool :=
  if !matchGbMobile (toE164 v) then false
  else if !isValid (toE164 v) then false
  else if looksSequentialOrRepeated (nationalForm (toE164 v)) then false
  else if !parseOk (toE164 v) then false
  else
    match getType (toE164 v) with
    | some t => !(t != "" && t != "MOBILE")
    | none => true

/-- C8: every input whose digits, after the validator's normalisation to
national form, are flagged as a repeated-digit run or an ascending /
descending decade sequence is rejected by the step-1 phone validator,
whatever the external library (`isValid`, `parseOk`, `getType`) reports —
in particular even if the library deems the number structurally valid and
mobile; the spec's two example dummy numbers are rejected for every
oracle as well. -/
theorem phone_rejects_sequential_or_repeated
    (isValid parseOk : String → Bool) (getType : String → Option String)
    (v : String)
    (hbad : looksSequentialOrRepeated (nationalForm (toE164 v)) = true) :
    ukMobile isValid parseOk getType v = false ∧
    ukMobile isValid parseOk getType "0000000000" = false ∧
    ukMobile isValid parseOk getType "0123456789" = false := by
  refine ⟨?_, rfl, rfl⟩
  unfold ukMobile
  rw [hbad]
  simp

/-- Witness for C8: the decade-sequence input `"0123456789"` satisfies the
hypothesis and is rejected (with a permissive oracle that validates
everything). -/
theorem phone_rejects_sequential_or_repeated_witness :
    looksSequentialOrRepeated (nationalForm (toE164 "0123456789")) = true ∧
    ukMobile (fun _ => true) (fun _ => true) (fun _ => some "MOBILE")
      "0123456789" = false := by
  refine ⟨by decide, ?_⟩
  exact (phone_rejects_sequential_or_repeated (fun _ => true) (fun _ => true)
    (fun _ => some "MOBILE") "0123456789" (by decide)).1

/-! ## Postcode validation and storage (StepTwo, `formSchema.postcode` /
`onSubmit`) -/

/-- An ASCII decimal digit (`\d`). -/
def isDigitChar (c : Char) : Bool :=
  decide (48 ≤ c.toNat) && decide (c.toNat ≤ 57)

/-- An ASCII letter (`[A-Z]` under the regex's `/i` flag). -/
def isAlphaChar (c : Char) : Bool :=
  (decide (65 ≤ c.toNat) && decide (c.toNat ≤ 90)) ||
  (decide (97 ≤ c.toNat) && decide (c.toNat ≤ 122))

/-- Tail of the postcode regex: `\d[A-Z]{2}$`. -/
def matchTail3 (l : List Char) : Bool :=
  match l with
  | [d, a, b] => isDigitChar d && isAlphaChar a && isAlphaChar b
  | _ => false

/-- `\s?\d[A-Z]{2}$`. -/
def matchOptWs (l : List Char) : Bool :=
  matchTail3 l ||
    (match l with
     | c :: rest => isWsChar c && matchTail3 rest
     | [] => false)

/-- `[A-Z]?\s?\d[A-Z]{2}$`. -/
def matchOptAlpha (l : List Char) : Bool :=
  matchOptWs l ||
    (match l with
     | c :: rest => isAlphaChar c && matchOptWs rest
     | [] => false)

/-- `\d{1,2}[A-Z]?\s?\d[A-Z]{2}$`. -/
def matchDigitsPart (l : List Char) : Bool :=
  match l with
  | c :: rest =>
    isDigitChar c &&
      (matchOptAlpha rest ||
        (match rest with
         | d :: r2 => isDigitChar d && matchOptAlpha r2
         | [] => false))
  | [] => false

/-- The UK postcode shape `/^[A-Z]{1,2}\d{1,2}[A-Z]?\s?\d[A-Z]{2}$/i` of
`formSchema.postcode`, as a backtracking-complete functional matcher: each
quantifier's alternatives are tried disjunctively, so the matcher accepts
exactly when some decomposition matches, as the regex does. -/
def ukPcMatch (s : String) : Bool :=
  match s.data with
  | c :: rest =>
    isAlphaChar c &&
      (matchDigitsPart rest ||
        (match rest with
         | c2 :: r2 => isAlphaChar c2 && matchDigitsPart r2
         | [] => false))
  | [] => false

/-- Per-character ASCII upper-casing, modelling
`String.prototype.toUpperCase` (which the inputs admitted by the ASCII
postcode regex never exercise beyond ASCII). -/
def asciiUpperChar (c : Char) : Char :=
  if decide (97 ≤ c.toNat) && decide (c.toNat ≤ 122) then
    Char.ofNat (c.toNat - 32)
  else c

/-- `v.toUpperCase()`. -/
def asciiUpper (s : String) : String :=
  String.mk (s.data.map asciiUpperChar)

/-- The step-2 postcode field outcome: the schema's regex gate followed by
`onSubmit`'s `values.postcode.toUpperCase()`; a failing regex attaches the
schema's message and `onNext` is never reached for the step. -/
def step2Postcode (v : String) : Except String String :=
  if ukPcMatch v then Except.ok (asciiUpper v)
  else Except.error "Please enter a valid UK postcode"

/-- The value merged into the draft (`none` = step advancement blocked). -/
def step2StoredPostcode (v : String) : Option String :=
  (step2Postcode v).toOption

theorem charOfNat_toNat {n : Nat} (h : n.isValidChar) :
    (Char.ofNat n).toNat = n := by
  unfold Char.ofNat
  rw [dif_pos h]
  unfold Char.ofNatAux Char.toNat
  simp [UInt32.toNat, BitVec.toNat_ofNatLt]

theorem asciiUpperChar_not_lower (c : Char) :
    (decide (97 ≤ (asciiUpperChar c).toNat) &&
      decide ((asciiUpperChar c).toNat ≤ 122)) = false := by
  unfold asciiUpperChar
  by_cases h : (decide (97 ≤ c.toNat) && decide (c.toNat ≤ 122)) = true
  · rw [if_pos h]
    simp only [Bool.and_eq_true, decide_eq_true_eq] at h
    have hv : (c.toNat - 32).isValidChar := Or.inl (by omega)
    rw [charOfNat_toNat hv]
    simp only [Bool.and_eq_false_iff, decide_eq_false_iff_not]
    left
    omega
  · rw [if_neg h]
    simpa using h

theorem asciiUpperChar_ws (c : Char) :
    isWsChar (asciiUpperChar c) = isWsChar c := by
  unfold asciiUpperChar
  by_cases h : (decide (97 ≤ c.toNat) && decide (c.toNat ≤ 122)) = true
  · rw [if_pos h]
    simp only [Bool.and_eq_true, decide_eq_true_eq] at h
    have hv : (c.toNat - 32).isValidChar := Or.inl (by omega)
    have hL : isWsChar (Char.ofNat (c.toNat - 32)) = false := by
      unfold isWsChar
      rw [charOfNat_toNat hv]
      simp only [Bool.or_eq_false_iff, beq_eq_false_iff_ne]
      omega
    have hR : isWsChar c = false := by
      unfold isWsChar
      simp only [Bool.or_eq_false_iff, beq_eq_false_iff_ne]
      omega
    rw [hL, hR]
  · rw [if_neg h]

theorem not_ws_of_digit {c : Char} (h : isDigitChar c = true) :
    isWsChar c = false := by
  simp only [isDigitChar, Bool.and_eq_true, decide_eq_true_eq] at h
  unfold isWsChar
  simp only [Bool.or_eq_false_iff, beq_eq_false_iff_ne]
  omega

theorem not_ws_of_alpha {c : Char} (h : isAlphaChar c = true) :
    isWsChar c = false := by
  simp only [isAlphaChar, Bool.or_eq_true, Bool.and_eq_true,
    decide_eq_true_eq] at h
  unfold isWsChar
  simp only [Bool.or_eq_false_iff, beq_eq_false_iff_ne]
  omega

theorem matchTail3_countWs (l : List Char) (h : matchTail3 l = true) :
    l.countP isWsChar = 0 := by
  rcases l with _ | ⟨d, _ | ⟨a, _ | ⟨b, _ | ⟨x, xs⟩⟩⟩⟩ <;>
    simp only [matchTail3] at h
  · cases h
  · cases h
  · cases h
  · simp only [Bool.and_eq_true] at h
    obtain ⟨⟨hd, ha⟩, hb⟩ := h
    simp [List.countP_cons, not_ws_of_digit hd, not_ws_of_alpha ha,
      not_ws_of_alpha hb]
  · cases h

theorem matchOptWs_countWs (l : List Char) (h : matchOptWs l = true) :
    l.countP isWsChar ≤ 1 := by
  unfold matchOptWs at h
  rw [Bool.or_eq_true] at h
  rcases h with h | h
  · simp [matchTail3_countWs l h]
  · rcases l with _ | ⟨c, rest⟩
    · cases h
    · simp only [Bool.and_eq_true] at h
      obtain ⟨hw, ht⟩ := h
      simp [List.countP_cons, matchTail3_countWs rest ht, hw]

theorem matchOptAlpha_countWs (l : List Char) (h : matchOptAlpha l = true) :
    l.countP isWsChar ≤ 1 := by
  unfold matchOptAlpha at h
  rw [Bool.or_eq_true] at h
  rcases h with h | h
  · exact matchOptWs_countWs l h
  · rcases l with _ | ⟨c, rest⟩
    · cases h
    · simp only [Bool.and_eq_true] at h
      obtain ⟨ha, ht⟩ := h
      simpa [List.countP_cons, not_ws_of_alpha ha] using
        matchOptWs_countWs rest ht

theorem matchDigitsPart_countWs (l : List Char)
    (h : matchDigitsPart l = true) : l.countP isWsChar ≤ 1 := by
  rcases l with _ | ⟨c, rest⟩
  · cases h
  · simp only [matchDigitsPart, Bool.and_eq_true, Bool.or_eq_true] at h
    obtain ⟨hd, h⟩ := h
    rcases h with h | h
    · simpa [List.countP_cons, not_ws_of_digit hd] using
        matchOptAlpha_countWs rest h
    · rcases rest with _ | ⟨d, r2⟩
      · cases h
      · simp only [Bool.and_eq_true] at h
        obtain ⟨hd2, h2⟩ := h
        simpa [List.countP_cons, not_ws_of_digit hd, not_ws_of_digit hd2]
          using matchOptAlpha_countWs r2 h2

theorem ukPcMatch_countWs (s : String) (h : ukPcMatch s = true) :
    s.data.countP isWsChar ≤ 1 := by
  rcases hs : s.data with _ | ⟨c, rest⟩ <;>
    simp only [ukPcMatch, hs] at h
  · cases h
  · simp only [Bool.and_eq_true, Bool.or_eq_true] at h
    obtain ⟨ha, h⟩ := h
    rcases h with h | h
    · simpa [List.countP_cons, not_ws_of_alpha ha] using
        matchDigitsPart_countWs rest h
    · rcases rest with _ | ⟨c2, r2⟩
      · cases h
      · simp only [Bool.and_eq_true] at h
        obtain ⟨ha2, h2⟩ := h
        simpa [List.countP_cons, not_ws_of_alpha ha, not_ws_of_alpha ha2]
          using matchDigitsPart_countWs r2 h2

theorem asciiUpper_countWs (l : List Char) :
    (l.map asciiUpperChar).countP isWsChar = l.countP isWsChar := by
  induction l with
  | nil => rfl
  | cons c rest ih => simp [List.countP_cons, ih, asciiUpperChar_ws]

/-- C9: every input matching the UK postcode shape is stored by step 2 as
its upper-cased form, which contains no lower-case ASCII letter and at most
one whitespace character (so no whitespace run survives); every
non-matching input produces the schema's non-empty error message and is
never merged into the draft. -/
theorem postcode_shape_normalisation :
    (∀ v, ukPcMatch v = true →
      step2Postcode v = Except.ok (asciiUpper v) ∧
      step2StoredPostcode v = some (asciiUpper v) ∧
      (∀ c ∈ (asciiUpper v).data,
        (decide (97 ≤ c.toNat) && decide (c.toNat ≤ 122)) = false) ∧
      (asciiUpper v).data.countP isWsChar ≤ 1) ∧
    (∀ v, ukPcMatch v = false →
      step2Postcode v = Except.error "Please enter a valid UK postcode" ∧
      ("Please enter a valid UK postcode" : String) ≠ "" ∧
      step2StoredPostcode v = none) := by
  constructor
  · intro v hv
    refine ⟨by simp [step2Postcode, hv], by simp [step2StoredPostcode,
      step2Postcode, hv, Except.toOption], ?_, ?_⟩
    · intro c hc
      simp only [asciiUpper, List.mem_map] at hc
      obtain ⟨x, _, hx⟩ := hc
      exact hx ▸ asciiUpperChar_not_lower x
    · show ((asciiUpper v).data).countP isWsChar ≤ 1
      unfold asciiUpper
      rw [asciiUpper_countWs]
      exact ukPcMatch_countWs v hv
  · intro v hv
    exact ⟨by simp [step2Postcode, hv], by decide,
      by simp [step2StoredPostcode, step2Postcode, hv, Except.toOption]⟩

/-- Witness for C9: the lower-case input `"sw1a 1aa"` matches and is stored
as `"SW1A 1AA"`; the non-matching input `"12 34"` is rejected with the
schema's message. -/
theorem postcode_shape_normalisation_witness :
    step2Postcode "sw1a 1aa" = Except.ok "SW1A 1AA" ∧
    step2Postcode "12 34" = Except.error "Please enter a valid UK postcode" ∧
    step2StoredPostcode "12 34" = none := by
  obtain ⟨hok, herr⟩ := postcode_shape_normalisation
  refine ⟨?_, (herr "12 34" (by decide)).1, (herr "12 34" (by decide)).2.2⟩
  have h := (hok "sw1a 1aa" (by decide)).1
  rw [h]
  rfl

/-! ## Step-3 submit handler, card-payment flow (StepThree `handleSubmit`) -/

/-- The fields of the step-3 form values relevant to submission. -/
structure StepThreeValues where
  notificationMethods : List String
  wasteTypes : List String
  specialInstructions : Option String
  urgentJob : Bool
  paymentMethod : String
  deriving DecidableEq, Repr

/-- The result object of `stripe.confirmCardPayment`. -/
structure PaymentIntent where
  id : String
  status : String
  deriving DecidableEq, Repr

/-- `{ paymentIntent, error }` destructured from the processor's response;
`error` carries `error.message` when present. -/
structure ConfirmCardResult where
  error : Option String
  paymentIntent : Option PaymentIntent
  deriving DecidableEq, Repr

/-- The normalised payload `handleSubmit` passes to `onSubmit`. -/
structure SubmittedData where
  notificationMethods : List String
  wasteTypes : List String
  wasteTypesSelected : List String
  specialInstructions : Option String
  urgentJob : Bool
  paymentMethod : String
  paymentStatus : String
  paymentIntentId : Option String
  deriving DecidableEq, Repr

/-- `toApiMethods`: UI notification ids to backend display-case tokens. -/
def toApiMethods (vals : List String) : List String :=
  vals.map (fun v =>
    if v == "whatsapp" then "WhatsApp"
    else if v == "email" then "Email"
    else if v == "sms" then "SMS" else v)

/-- `values.specialInstructions?.trim() || undefined`. -/
def trimOrNone (o : Option String) : Option String :=
  match o with
  | some s => if s.trim == "" then none else some s.trim
  | none => none

/-- Outcome of one run of the step-3 submit handler: either `onSubmit` is
invoked with a payload, or the handler aborts via its catch (an alert)
without any submission. -/
inductive StepThreeOutcome where
  | submitted (p : SubmittedData)
  | aborted (msg : String)
  deriving DecidableEq, Repr

/-- The step-3 `handleSubmit` from `StepThree`, with the network and
processor exchanges passed as results: `stripeReady` is `stripe &&
elements`, `createIntent` the outcome of `createPaymentIntentOnServer`
(`Except.ok` carries the client secret), `cardPresent` whether
`elements.getElement(CardElement)` is non-null, and `confirm` the
destructured `confirmCardPayment` response.  Every `throw` lands in the
handler's catch, which alerts and submits nothing. -/
def handleSubmitStepThree (stripeReady : Bool)
    (createIntent : Except String String) (cardPresent : Bool)
    (confirm : ConfirmCardResult) (values : StepThreeValues) :
    StepThreeOutcome :=
  if values.paymentMethod == "card" then
    if !stripeReady then .aborted "Stripe not ready"
    else
      match createIntent with
      | .error e => .aborted e
      | .ok _clientSecret =>
        if !cardPresent then .aborted "Card element missing"
        else
          match confirm.error with
          | some msg => .aborted (if msg == "" then "Payment failed" else msg)
          | none =>
            match confirm.paymentIntent with
            | none => .aborted "Payment not completed"
            | some pi =>
              if pi.status != "succeeded" then .aborted "Payment not completed"
              else .submitted
                { notificationMethods := toApiMethods values.notificationMethods
                  wasteTypes := values.wasteTypes
                  wasteTypesSelected := values.wasteTypes
                  specialInstructions := trimOrNone values.specialInstructions
                  urgentJob := values.urgentJob
                  paymentMethod := "card"
                  paymentStatus := "Paid"
                  paymentIntentId := some pi.id }
  else
    .submitted
      { notificationMethods := toApiMethods values.notificationMethods
        wasteTypes := values.wasteTypes
        wasteTypesSelected := values.wasteTypes
        specialInstructions := trimOrNone values.specialInstructions
        urgentJob := values.urgentJob
        paymentMethod := values.paymentMethod
        paymentStatus := "Unpaid"
        paymentIntentId := none }

/-- The wiring of `StepThree`'s `onSubmit` prop: `BookingForm.handleSubmit`
(which merges into `formData` and posts) runs only when the handler reaches
`onSubmit`; an aborted run leaves the draft untouched and performs no
submission call. -/
def stepThreeRun (draft : SlotPair) (outcome : StepThreeOutcome) :
    SlotPair × Option SubmittedData :=
  match outcome with
  | .submitted p => (draft, some p)
  | .aborted _ => (draft, none)

/-- C2: in a card-flow run that reaches the processor (Stripe ready, intent
created, card element mounted), the backend submission happens iff the
confirm-payment call reports no error and an intent with status
`"succeeded"`; a submitted payload always carries `paymentStatus = "Paid"`
and the intent's identifier as reference; an aborted run performs no
submission call and leaves the draft unchanged. -/
theorem card_flow_submits_iff_succeeded (stripeReady cardPresent : Bool)
    (secret : String) (confirm : ConfirmCardResult)
    (values : StepThreeValues) (draft : SlotPair)
    (hcard : values.paymentMethod = "card")
    (hready : stripeReady = true) (hpresent : cardPresent = true) :
    ((∃ p, handleSubmitStepThree stripeReady (.ok secret) cardPresent
        confirm values = .submitted p) ↔
      (confirm.error = none ∧ ∃ pi, confirm.paymentIntent = some pi ∧
        pi.status = "succeeded")) ∧
    (∀ p, handleSubmitStepThree stripeReady (.ok secret) cardPresent
        confirm values = .submitted p →
      p.paymentStatus = "Paid" ∧ p.paymentMethod = "card" ∧
      p.paymentIntentId = confirm.paymentIntent.map PaymentIntent.id) ∧
    (∀ m, handleSubmitStepThree stripeReady (.ok secret) cardPresent
        confirm values = .aborted m →
      stepThreeRun draft (.aborted m) = (draft, none)) := by
  subst hready hpresent
  obtain ⟨err, intent⟩ := confirm
  refine ⟨?_, ?_, fun m _ => rfl⟩
  · rcases err with _ | msg
    · rcases intent with _ | pi
      · simp [handleSubmitStepThree, hcard]
      · by_cases hst : pi.status = "succeeded" <;>
          simp [handleSubmitStepThree, hcard, hst]
    · simp [handleSubmitStepThree, hcard]
  · intro p hp
    rcases err with _ | msg
    · rcases intent with _ | pi
      · simp [handleSubmitStepThree, hcard] at hp
      · by_cases hst : pi.status = "succeeded"
        · simp [handleSubmitStepThree, hcard, hst] at hp
          subst hp
          exact ⟨rfl, rfl, rfl⟩
        · simp [handleSubmitStepThree, hcard, hst] at hp
    · simp [handleSubmitStepThree, hcard] at hp

/-- Witness for C2: with the processor reporting success the handler
submits a `"Paid"` payload carrying the intent id; with a processor error
no submission happens. -/
theorem card_flow_submits_iff_succeeded_witness :
    (∃ p, handleSubmitStepThree true (Except.ok "cs_test") true
        ⟨none, some ⟨"pi_123", "succeeded"⟩⟩
        ⟨["email"], ["Wood"], none, false, "card"⟩ =
          StepThreeOutcome.submitted p ∧
      p.paymentStatus = "Paid" ∧
      p.paymentIntentId = some "pi_123") ∧
    ¬(∃ p, handleSubmitStepThree true (Except.ok "cs_test") true
        ⟨some "card declined", none⟩
        ⟨["email"], ["Wood"], none, false, "card"⟩ =
          StepThreeOutcome.submitted p) := by
  constructor
  · have h := card_flow_submits_iff_succeeded true true "cs_test"
      ⟨none, some ⟨"pi_123", "succeeded"⟩⟩
      ⟨["email"], ["Wood"], none, false, "card"⟩ ⟨"", ""⟩ rfl rfl rfl
    obtain ⟨p, hp⟩ := h.1.mpr ⟨rfl, ⟨"pi_123", "succeeded"⟩, rfl, rfl⟩
    obtain ⟨h1, _, h3⟩ := h.2.1 p hp
    exact ⟨p, hp, h1, h3⟩
  · intro hcon
    have h := card_flow_submits_iff_succeeded true true "cs_test"
      ⟨some "card declined", none⟩
      ⟨["email"], ["Wood"], none, false, "card"⟩ ⟨"", ""⟩ rfl rfl rfl
    obtain ⟨habs, _⟩ := h.1.mp hcon
    cases habs

/-! ## Submission transport (`lib/sheets` `submitBookingToGoogleSheets`) -/

/-- What `JSON.parse`/`res.json()` makes of the response body: an object
with `ok: false` (carrying an error string), some other JSON value, or a
parse failure. -/
inductive JsonBody where
  | okFalse (err : Option String)
  | okOther
  | notJson
  deriving DecidableEq, Repr

/-- A completed HTTP exchange: `res.ok`, `res.status`, the body as text and
as parsed JSON. -/
structure HttpRes where
  resOk : Bool
  status : Nat
  text : String
  body : JsonBody
  deriving DecidableEq, Repr

/-- `replace(/\/$/, "")`: drop one trailing slash. -/
def dropTrailingSlash (l : List Char) : List Char :=
  if l.getLast? == some '/' then l.dropLast else l

/-- The URL normalisation of `submitBookingToGoogleSheets`:
`baseUrl.endsWith("/exec") ? baseUrl : baseUrl.replace(/\/$/,"") + "/exec"`. -/
def execUrl (baseUrl : String) : String :=
  if "/exec".data.isSuffixOf baseUrl.data then baseUrl
  else String.mk (dropTrailingSlash baseUrl.data) ++ "/exec"

/-- How one call of `submitBookingToGoogleSheets` settles: the returned
promise resolves (possibly only after the fire-and-forget fallback) or
rejects with a message. -/
inductive SubmitResult where
  | resolved
  | resolvedViaFallback
  | rejected (msg : String)
  deriving DecidableEq, Repr

/-- `submitBookingToGoogleSheets` from `lib/sheets`: the primary `fetch`
outcome and the fallback `fetch` outcome are passed as results.  Control
flow mirrors the source: a missing env URL throws before the `try`; a
thrown primary exchange or a non-ok HTTP status reaches the outer catch,
which issues the fire-and-forget fallback and resolves; once `res.ok`
holds, the inner `try { const json = await res.json(); if (json && json.ok
=== false) throw ... } catch \x7b\x7d` swallows both a JSON parse failure
and its own `ok === false` throw, so every body shape resolves. -/
def submitBookingToGoogleSheets (baseUrl : Option String)
    (primary : Except String HttpRes) (fallback : Except String Unit) :
    SubmitResult :=
  match baseUrl with
  | none => .rejected "VITE_SHEETS_WEB_APP_URL is not set"
  | some _u =>
    match primary with
    | .error _ =>
      match fallback with
      | .ok _ => .resolvedViaFallback
      | .error e => .rejected e
    | .ok res =>
      if !res.resOk then
        match fallback with
        | .ok _ => .resolvedViaFallback
        | .error e => .rejected e
      else
        match res.body with
        | .okFalse _ => .resolved
        | .okOther => .resolved
        | .notJson => .resolved

/-- C3 exhibit: an HTTP-200 exchange whose body parses as
`ok:false` with an error message still RESOLVES — the `throw` that should
surface the backend failure is caught by its own enclosing `catch`, so the
submission function never rejects on an explicit `ok:false` body, contrary
to the claim (and to the intent visible in the source's comment and
`throw`). -/
theorem submit_ok_false_still_resolves :
    submitBookingToGoogleSheets (some "https://script.example/exec")
      (Except.ok ⟨true, 200, "\x7b\x22ok\x22:false\x7d",
        JsonBody.okFalse (some "boom")⟩)
      (Except.ok ()) = SubmitResult.resolved ∧
    (∀ m, submitBookingToGoogleSheets (some "https://script.example/exec")
      (Except.ok ⟨true, 200, "\x7b\x22ok\x22:false\x7d",
        JsonBody.okFalse (some "boom")⟩)
      (Except.ok ()) ≠ SubmitResult.rejected m) := by
  exact ⟨rfl, fun m h => by cases h⟩

/-! ## Debounced postcode lookup: stale-response application (StepTwo
`useEffect`) -/

/-- The lookup status displayed next to the postcode field. -/
inductive PcStatus where
  | idle
  | loading
  | ok
  | notfound
  | error
  deriving DecidableEq, Repr

/-- The address-related slice of the step-2 form state. -/
structure Step2FormState where
  postcode : String
  addressLine1 : String
  addressLine2 : String
  town : String
  county : String
  pcStatus : Option PcStatus
  deriving DecidableEq, Repr

/-- The canonical address produced by `mapLoqateToUi`. -/
structure UiAddress where
  line1 : String
  line2 : String
  town : String
  county : String
  postcode : String
  deriving DecidableEq, Repr

/-- The loosely-typed record returned by the address-get endpoint; each
field models one provider alias, in the source's fallback order:
`Line1`/`Address1`, `Line2`/`Address2`, `PostTown`/`City`/`Town`,
`ProvinceName`/`County`/`Province`, `PostalCode`/`PostCode`/`Postcode`. -/
structure RawLoqate where
  line1A : Option String
  line1B : Option String
  line2A : Option String
  line2B : Option String
  townA : Option String
  townB : Option String
  townC : Option String
  countyA : Option String
  countyB : Option String
  countyC : Option String
  pcA : Option String
  pcB : Option String
  pcC : Option String
  deriving DecidableEq, Repr

/-- `a || b` on possibly-undefined strings. -/
def jsOrStr (a b : Option String) : Option String :=
  if jsTruthy a then a else b

/-- `a || b || ""`. -/
def jsOrDefault (a b : Option String) : String :=
  if jsTruthy a then a.getD "" else if jsTruthy b then b.getD "" else ""

/-- `a || b || c || ""`. -/
def jsOr3Default (a b c : Option String) : String :=
  if jsTruthy a then a.getD "" else jsOrDefault b c

/-- `mapLoqateToUi`: normalise the provider's historical field aliases onto
the canonical address shape, upper-casing the postcode. -/
def mapLoqateToUi (raw : RawLoqate) : UiAddress :=
  { line1 := jsOrDefault raw.line1A raw.line1B
    line2 := jsOrDefault raw.line2A raw.line2B
    town := jsOr3Default raw.townA raw.townB raw.townC
    county := jsOr3Default raw.countyA raw.countyB raw.countyC
    postcode := asciiUpper (jsOr3Default raw.pcA raw.pcB raw.pcC) }

/-- The `form.setValue` block both lookup paths run on success: each field
is written only when the fetched value is truthy; line 2 additionally only
when the current field is empty; the status becomes `"ok"`. -/
def applyDebouncedAddress (addr : UiAddress) (st : Step2FormState) :
    Step2FormState :=
  { postcode := if addr.postcode != "" then addr.postcode else st.postcode
    addressLine1 := if addr.line1 != "" then addr.line1 else st.addressLine1
    addressLine2 :=
      if addr.line2 != "" && st.addressLine2 == "" then addr.line2
      else st.addressLine2
    town := if addr.town != "" then addr.town else st.town
    county := if addr.county != "" then addr.county else st.county
    pcStatus := some PcStatus.ok }

/-- The continuation of the debounced postcode `useEffect` after its
network calls complete: `requestedPc` is the postcode captured when the
timer fired, `addrId` the cascade result, `fetched` the address-get record,
and `current` the form state AT COMPLETION TIME.  Faithful to the source,
the fetched record is applied to `current` without any comparison of
`current.postcode` against `requestedPc`. -/
def debouncedLookupComplete (requestedPc : String) (addrId : Option String)
    (fetched : RawLoqate) (current : Step2FormState) : Step2FormState :=
  match addrId with
  | none => { current with pcStatus := some PcStatus.notfound }
  | some _ =>
    let _pc := requestedPc
    applyDebouncedAddress (mapLoqateToUi fetched) current

/-- The form state after the user edited the postcode to `"E1 6AN"` while
a lookup for `"SW1A 1AA"` was in flight. -/
def c4EditedState : Step2FormState :=
  ⟨"E1 6AN", "", "", "", "", some PcStatus.loading⟩

/-- The record the provider returns for the superseded query
`"SW1A 1AA"`. -/
def c4StaleRecord : RawLoqate :=
  ⟨some "10 Downing Street", none, none, none, some "London", none, none,
    some "Greater London", none, none, some "SW1A 1AA", none, none⟩

/-- C4 exhibit: the debounced lookup fired for `"SW1A 1AA"`; before its
response arrived the user changed the field to `"E1 6AN"`; the completion
handler nevertheless applies the stale record — it fills the address
fields and even overwrites the postcode back to `"SW1A 1AA"` — because the
source performs no check that the response still corresponds to the
current postcode value, contrary to the claim (and to §5 of the spec,
which calls that check a required correctness property). -/
theorem stale_lookup_response_applied :
    c4EditedState.postcode ≠ "SW1A 1AA" ∧
    (debouncedLookupComplete "SW1A 1AA" (some "GB|RM|A|1") c4StaleRecord
      c4EditedState).addressLine1 = "10 Downing Street" ∧
    (debouncedLookupComplete "SW1A 1AA" (some "GB|RM|A|1") c4StaleRecord
      c4EditedState).postcode = "SW1A 1AA" ∧
    (debouncedLookupComplete "SW1A 1AA" (some "GB|RM|A|1") c4StaleRecord
      c4EditedState).pcStatus = some PcStatus.ok := by
  exact ⟨by decide, rfl, rfl, rfl⟩

/-! ## Address resolution cascade (StepTwo `resolveFirstAddressId`) -/

/-- Per-character ASCII lower-casing (`String.prototype.toLowerCase` on the
ASCII values the provider's `Type` field uses). -/
def asciiLowerChar (c : Char) : Char :=
  if decide (65 ≤ c.toNat) && decide (c.toNat ≤ 90) then
    Char.ofNat (c.toNat + 32)
  else c

/-- `s.toLowerCase()`. -/
def asciiLower (s : String) : String :=
  String.mk (s.data.map asciiLowerChar)

/-- One candidate of an address-find response:
`{ Id?: string; id?: string; Type?: string }`.  `bigId` models the `Id`
field, `smallId` the `id` field, `typ` the `Type` field. -/
structure LoqateItem where
  bigId : Option String
  smallId : Option String
  typ : Option String
  deriving DecidableEq, Repr

/-- A find query: level 1 by postcode text, levels 2–3 scoped to a
container identifier. -/
inductive FindQuery where
  | byText (query : String)
  | byContainer (container : String)
  deriving DecidableEq, Repr

/-- `Array.isArray(r.items) ? r.items : []`. -/
def itemsOf (resp : Option (List LoqateItem)) : List LoqateItem :=
  resp.getD []

/-- `(it.Type || "").toLowerCase() === "address"`. -/
def isAddressItem (it : LoqateItem) : Bool :=
  asciiLower (it.typ.getD "") == "address"

/-- `o?.Id || o?.id` on a possibly-undefined item. -/
def idOf (o : Option LoqateItem) : Option String :=
  match o with
  | some it => jsOrStr it.bigId it.smallId
  | none => none

/-- `resolveFirstAddressId` from `StepTwo`, against a provider modelled as
a function from find query to response; paired with the number of
find-calls issued.  Faithful to the source: each level returns an
address-typed candidate's truthy identifier if present, otherwise drills
into the first candidate's identifier, for at most three find-calls; the
third level returns `(address?.Id || address?.id) || null`. -/
def resolveFirstAddressId (provider : FindQuery → Option (List LoqateItem))
    (postcode : String) : Option String × Nat :=
  let items1 := itemsOf (provider (FindQuery.byText postcode))
  if items1.length == 0 then (none, 1)
  else
    let addr1 := items1.find? isAddressItem
    if jsTruthy (idOf addr1) then (idOf addr1, 1)
    else
      let container1 := idOf items1.head?
      if !jsTruthy container1 then (none, 1)
      else
        let items2 := itemsOf (provider (FindQuery.byContainer
          (container1.getD "")))
        if items2.length == 0 then (none, 2)
        else
          let addr2 := items2.find? isAddressItem
          if jsTruthy (idOf addr2) then (idOf addr2, 2)
          else
            let container2 := idOf items2.head?
            if !jsTruthy container2 then (none, 2)
            else
              let items3 := itemsOf (provider (FindQuery.byContainer
                (container2.getD "")))
              let addr3 := items3.find? isAddressItem
              (if jsTruthy (idOf addr3) then idOf addr3 else none, 3)

/-- The debounced `useEffect`'s use of the cascade: a `null` identifier
means "not found" and no get-call; a truthy identifier is passed to one
address-get call. -/
def debouncedLookupCallCounts
    (provider : FindQuery → Option (List LoqateItem)) (postcode : String) :
    Nat × Nat :=
  match resolveFirstAddressId provider postcode with
  | (some _, finds) => (finds, 1)
  | (none, finds) => (finds, 0)

/-- C5: (a) the cascade never issues more than three find-calls, for every
provider; (b) a provider answering container, container, concrete address
on the three successive queries resolves to that address's identifier with
exactly 3 find-calls and 1 get-call; (c) a provider that never produces an
address-typed candidate makes the cascade terminate with a null identifier,
no get-call, and at most 3 find-calls. -/
theorem cascade_depth_and_scenarios :
    (∀ provider pc, (resolveFirstAddressId provider pc).2 ≤ 3) ∧
    (∀ provider pc is1 is2 is3 c1 c2 a aid,
      provider (FindQuery.byText pc) = some is1 →
      is1 ≠ [] →
      is1.find? isAddressItem = none →
      idOf is1.head? = some c1 → c1 ≠ "" →
      provider (FindQuery.byContainer c1) = some is2 →
      is2 ≠ [] →
      is2.find? isAddressItem = none →
      idOf is2.head? = some c2 → c2 ≠ "" →
      provider (FindQuery.byContainer c2) = some is3 →
      is3.find? isAddressItem = some a →
      jsOrStr a.bigId a.smallId = some aid → aid ≠ "" →
      resolveFirstAddressId provider pc = (some aid, 3) ∧
      debouncedLookupCallCounts provider pc = (3, 1)) ∧
    (∀ provider pc,
      (∀ q, (itemsOf (provider q)).find? isAddressItem = none) →
      (resolveFirstAddressId provider pc).1 = none ∧
      debouncedLookupCallCounts provider pc =
        ((resolveFirstAddressId provider pc).2, 0)) := by
  refine ⟨?_, ?_, ?_⟩
  · intro provider pc
    unfold resolveFirstAddressId
    dsimp only
    split_ifs <;> simp
  · intro provider pc is1 is2 is3 c1 c2 a aid hp1 hne1 hf1 hid1 hc1 hp2 hne2
      hf2 hid2 hc2 hp3 hf3 haid hcaid
    have hres : resolveFirstAddressId provider pc = (some aid, 3) := by
      unfold resolveFirstAddressId
      dsimp only
      simp only [idOf] at hid1 hid2
      simp [itemsOf, idOf, jsTruthy, hp1, hne1, hf1, hid1, hc1, hp2, hne2,
        hf2, hid2, hc2, hp3, hf3, haid, hcaid, List.length_eq_zero]
    refine ⟨hres, ?_⟩
    unfold debouncedLookupCallCounts
    rw [hres]
  · intro provider pc h
    have h1 : (resolveFirstAddressId provider pc).1 = none := by
      unfold resolveFirstAddressId
      dsimp only
      simp only [h, idOf, jsTruthy]
      split_ifs <;> simp
    refine ⟨h1, ?_⟩
    unfold debouncedLookupCallCounts
    rcases hres : resolveFirstAddressId provider pc with ⟨r, n⟩
    rw [hres] at h1
    simp only at h1
    subst h1
    rfl

/-- A mocked provider: container on the postcode query, container inside
`"C1"`, concrete address inside `"C2"`. -/
def c5Provider : FindQuery → Option (List LoqateItem)
  | FindQuery.byText _ => some [⟨some "C1", none, some "Container"⟩]
  | FindQuery.byContainer c =>
    if c == "C1" then some [⟨some "C2", none, some "Container"⟩]
    else if c == "C2" then some [⟨some "A1", none, some "Address"⟩]
    else some []

/-- A mocked provider that only ever returns containers. -/
def c5NoAddressProvider : FindQuery → Option (List LoqateItem) :=
  fun _ => some [⟨some "C0", none, some "Container"⟩]

/-- Witness for C5: the two mocked providers realise both scenarios. -/
theorem cascade_depth_and_scenarios_witness :
    resolveFirstAddressId c5Provider "SW1A 1AA" = (some "A1", 3) ∧
    debouncedLookupCallCounts c5Provider "SW1A 1AA" = (3, 1) ∧
    (resolveFirstAddressId c5NoAddressProvider "SW1A 1AA").1 = none ∧
    debouncedLookupCallCounts c5NoAddressProvider "SW1A 1AA" = (3, 0) ∧
    (resolveFirstAddressId c5NoAddressProvider "SW1A 1AA").2 ≤ 3 := by
  obtain ⟨hA, hB, hC⟩ := cascade_depth_and_scenarios
  have hb := hB c5Provider "SW1A 1AA"
    [⟨some "C1", none, some "Container"⟩]
    [⟨some "C2", none, some "Container"⟩]
    [⟨some "A1", none, some "Address"⟩]
    "C1" "C2" ⟨some "A1", none, some "Address"⟩ "A1"
    rfl (by decide) (by decide) rfl (by decide) rfl (by decide) (by decide)
    rfl (by decide) rfl (by decide) rfl (by decide)
  have hcnone := hC c5NoAddressProvider "SW1A 1AA" (fun q => rfl)
  have hn3 : (resolveFirstAddressId c5NoAddressProvider "SW1A 1AA").2 = 3 :=
    rfl
  exact ⟨hb.1, hb.2, hcnone.1, by rw [hcnone.2, hn3],
    hA c5NoAddressProvider "SW1A 1AA"⟩

/-! ## Defensive blur lookup (StepTwo `handlePostcodeBlur`) -/

/-- `s.trim()` on ASCII whitespace. -/
def trimWs (s : String) : String :=
  String.mk (((s.data.dropWhile isWsChar).reverse.dropWhile
    isWsChar).reverse)

/-- `handlePostcodeBlur` from `StepTwo`, with the find exchange passed as a
result and the get response's record as `fetched` (a throwing get exchange
would land in the same catch; the claim concerns the calls issued, which
are fixed before the get response arrives).  Returns the new form state,
the number of find-calls, the number of get-calls, and the identifier
passed to the address-get endpoint (`items[0]?.Id || items[0]?.id`, taken
from the first candidate with no inspection of its `Type`). -/
def handlePostcodeBlur (st : Step2FormState)
    (findExchange : Except String (Option (List LoqateItem)))
    (fetched : RawLoqate) : Step2FormState × Nat × Nat × Option String :=
  let pc := asciiUpper (trimWs st.postcode)
  if pc == "" || !ukPcMatch pc then (st, 0, 0, none)
  else if st.pcStatus == some PcStatus.ok ||
      st.pcStatus == some PcStatus.notfound then (st, 0, 0, none)
  else
    match findExchange with
    | .error _ => ({ st with pcStatus := some PcStatus.error }, 1, 0, none)
    | .ok resp =>
      let items := itemsOf resp
      if items.length == 0 then
        ({ st with pcStatus := some PcStatus.notfound }, 1, 0, none)
      else
        (applyDebouncedAddress (mapLoqateToUi fetched) st, 1, 1,
          idOf items.head?)

/-- C10: a blur-triggered lookup that runs (valid postcode, no definitive
status yet) and receives a non-empty candidate list issues exactly one
find-call and one get-call, passing the FIRST candidate's identifier to the
get-endpoint whatever that candidate's type discriminator says — no
three-level narrowing happens on this path. -/
theorem blur_lookup_single_find_get (st : Step2FormState)
    (first : LoqateItem) (rest : List LoqateItem) (fetched : RawLoqate)
    (hmatch : ukPcMatch (asciiUpper (trimWs st.postcode)) = true)
    (hok : st.pcStatus ≠ some PcStatus.ok)
    (hnf : st.pcStatus ≠ some PcStatus.notfound) :
    handlePostcodeBlur st (Except.ok (some (first :: rest))) fetched =
      (applyDebouncedAddress (mapLoqateToUi fetched) st, 1, 1,
        jsOrStr first.bigId first.smallId) := by
  unfold handlePostcodeBlur
  dsimp only
  rw [if_neg ?hguard1, if_neg ?hguard2]
  case hguard1 =>
    intro hcon
    rw [Bool.or_eq_true] at hcon
    rcases hcon with hc | hc
    · have hpc : asciiUpper (trimWs st.postcode) = "" := by simpa using hc
      rw [hpc] at hmatch
      exact absurd hmatch (by decide)
    · rw [hmatch] at hc
      cases hc
  case hguard2 =>
    intro hcon
    rw [Bool.or_eq_true] at hcon
    rcases hcon with hc | hc
    · exact hok (by simpa using hc)
    · exact hnf (by simpa using hc)
  simp [itemsOf, idOf]

/-- Witness for C10: a container-typed sole candidate still gets its
identifier passed straight to the get-endpoint. -/
theorem blur_lookup_single_find_get_witness :
    ukPcMatch (asciiUpper (trimWs "sw1a 1aa")) = true ∧
    handlePostcodeBlur ⟨"sw1a 1aa", "", "", "", "", some PcStatus.idle⟩
        (Except.ok (some [⟨some "GB|C|123", none, some "Container"⟩]))
        ⟨some "1 Main Road", none, none, none, some "Testtown", none, none,
          none, none, none, some "SW1A 1AA", none, none⟩ =
      (applyDebouncedAddress
        (mapLoqateToUi ⟨some "1 Main Road", none, none, none,
          some "Testtown", none, none, none, none, none, some "SW1A 1AA",
          none, none⟩)
        ⟨"sw1a 1aa", "", "", "", "", some PcStatus.idle⟩, 1, 1,
        some "GB|C|123") := by
  refine ⟨by decide, ?_⟩
  exact (blur_lookup_single_find_get
    ⟨"sw1a 1aa", "", "", "", "", some PcStatus.idle⟩
    ⟨some "GB|C|123", none, some "Container"⟩ []
    ⟨some "1 Main Road", none, none, none, some "Testtown", none, none,
      none, none, none, some "SW1A 1AA", none, none⟩
    (by decide) (by decide) (by decide)).trans rfl
